import Mathlib

/-!
A shallow embedding of the tap-marketo sync module (tap_marketo/sync.py) together
with theorems settling the specification claims about it.

Modelling conventions, used throughout:

* Python values that flow through the tap are modelled by the inductive type
  `PyVal`.  Pendulum datetimes and the ISO-8601 strings they serialize to are
  modelled as integer microseconds since the Unix epoch, wrapped in the
  constructor `PyVal.vtime`; `pendulum.parse` and `isoformat` are mutually
  inverse codings on this representation, and `replace(microsecond=0)` is
  truncation to whole seconds.
* The singer bookmark store (an external collaborator of the repository, used
  via `singer.bookmarks.get_bookmark` / `write_bookmark` / `write_state`) is
  modelled as a nested association list keyed by stream id and bookmark key,
  exactly the documented `state["bookmarks"][stream_id][key]` layout.  A key
  holding the JSON value null and an absent key are both read back as
  `PyVal.vnone`, matching `get_bookmark`'s default of `None`.
* Functions that call `singer.write_state` additionally return the list of
  state snapshots written, in order, so that persistence behaviour is part of
  the model.
* Fallible Python code (raised exceptions) is modelled with `Except PyErr`.
-/

namespace TapMarketo

/-- Python values handled by the sync module.  Datetimes (and the ISO strings
they round-trip through) are integer microseconds since the epoch. -/
inductive PyVal where
  | vnone
  | vstr (s : String)
  | vtime (t : Int)
  | vint (n : Int)
  | vnum (q : Rat)
  | vbool (b : Bool)
deriving DecidableEq

/-- Python exceptions raised by the modelled code paths.  fuelExhausted is a
model artifact marking an exceeded loop bound, not a Python exception; it is
unreachable at the fuel values the theorems use. -/
inductive PyErr where
  | exportFailed
  | typeError
  | valueError
  | attributeError
  | parseError
  | fuelExhausted
deriving DecidableEq

/-- Microseconds in one day (pendulum add/subtract days operates on this). -/
def usPerDay : Int := 86400000000

/-- Microseconds in one second. -/
def usPerSecond : Int := 1000000

/-- Model of pendulum.parse applied to a bookmark value: an ISO datetime string
(coded as vtime) parses to its instant; None raises TypeError; anything that is
not a datetime string fails to parse. -/
def pendulum_parse : PyVal → Except PyErr Int
  | .vtime t => .ok t
  | .vnone => .error .typeError
  | _ => .error .parseError

/-- Model of datetime.replace(microsecond=0): truncate to whole seconds. -/
def truncMicroseconds (t : Int) : Int := (t / usPerSecond) * usPerSecond

/-- Python truthiness for the modelled values (used by `if bookmark:` and
`if not export_id:`). -/
def pyTruthy : PyVal → Bool
  | .vnone => false
  | .vstr s => s ≠ ""
  | .vtime _ => true
  | .vint n => n ≠ 0
  | .vnum q => q ≠ 0
  | .vbool b => b

/-- Lookup in a string-keyed association list. -/
def getAssoc {β : Type} : List (String × β) → String → Option β
  | [], _ => none
  | (k0, v0) :: t, k => if k0 = k then some v0 else getAssoc t k

/-- Insert-or-replace in a string-keyed association list. -/
def setAssoc {β : Type} : List (String × β) → String → β → List (String × β)
  | [], k, v => [(k, v)]
  | (k0, v0) :: t, k, v => if k0 = k then (k, v) :: t else (k0, v0) :: setAssoc t k v

theorem getAssoc_setAssoc_self {β : Type} (l : List (String × β)) (k : String) (v : β) :
    getAssoc (setAssoc l k v) k = some v := by
  induction l with
  | nil => simp [setAssoc, getAssoc]
  | cons hd t ih =>
    obtain ⟨k0, v0⟩ := hd
    by_cases h : k0 = k
    · simp [setAssoc, getAssoc, h]
    · simp [setAssoc, getAssoc, h, ih]

theorem getAssoc_setAssoc_ne {β : Type} (l : List (String × β)) (k k2 : String) (v : β)
    (h : k2 ≠ k) : getAssoc (setAssoc l k v) k2 = getAssoc l k2 := by
  have hne : k ≠ k2 := Ne.symm h
  induction l with
  | nil => simp [setAssoc, getAssoc, hne]
  | cons hd t ih =>
    obtain ⟨k0, v0⟩ := hd
    by_cases h0 : k0 = k
    · subst h0
      simp [setAssoc, getAssoc, hne]
    · by_cases h1 : k0 = k2
      · subst h1
        simp [setAssoc, getAssoc, h0]
      · simp [setAssoc, getAssoc, h0, h1, ih]

/-- The singer state object: `state["bookmarks"]` as a nested association list
(stream id, then bookmark key).  The currently-syncing marker plays no role in
the claims and is omitted. -/
structure TapState where
  bookmarks : List (String × List (String × PyVal))
deriving DecidableEq

/-- Model of singer.bookmarks.get_bookmark with default None: absent stream or
absent key reads as null. -/
def get_bookmark (state : TapState) (sid key : String) : PyVal :=
  match getAssoc state.bookmarks sid with
  | none => .vnone
  | some m => (getAssoc m key).getD .vnone

/-- Model of singer.bookmarks.write_bookmark: ensure the stream's bookmark map
exists and set the key (the Python function mutates and returns the state). -/
def write_bookmark (state : TapState) (sid key : String) (v : PyVal) : TapState :=
  ⟨setAssoc state.bookmarks sid (setAssoc ((getAssoc state.bookmarks sid).getD []) key v)⟩

theorem get_write_bookmark_self (s : TapState) (sid key : String) (v : PyVal) :
    get_bookmark (write_bookmark s sid key v) sid key = v := by
  simp [get_bookmark, write_bookmark, getAssoc_setAssoc_self]

theorem get_write_bookmark_ne_key (s : TapState) (sid kWrite kRead : String) (v : PyVal)
    (h : kWrite ≠ kRead) :
    get_bookmark (write_bookmark s sid kWrite v) sid kRead = get_bookmark s sid kRead := by
  have hne : kRead ≠ kWrite := Ne.symm h
  unfold get_bookmark write_bookmark
  simp only [getAssoc_setAssoc_self]
  cases h0 : getAssoc s.bookmarks sid with
  | none => simp [getAssoc_setAssoc_ne _ _ _ _ hne, getAssoc, hne, h]
  | some m => simp [getAssoc_setAssoc_ne _ _ _ _ hne, h]

/-! ### UTF-8 decoding (decode_utf8_chunk, sync.py lines 52-71)

Python's bytes.decode('utf-8') is strict UTF-8: it rejects overlong encodings,
surrogate code points and code points above U+10FFFF, and fails on a buffer
that ends in the middle of a multi-byte character.  `utf8DecodeBytes` is that
decoder on byte lists (bytes as Nat), returning none where Python raises
UnicodeDecodeError. -/

/-- Continuation byte test: 0x80-0xBF. -/
def isCont (b : Nat) : Bool := decide (0x80 ≤ b ∧ b ≤ 0xBF)

/-- Constraint on the first continuation byte of a 3- or 4-byte sequence,
which depends on the lead byte (excludes overlongs, surrogates, > U+10FFFF). -/
def validFollow (b c1 : Nat) : Bool :=
  if b = 0xE0 then decide (0xA0 ≤ c1 ∧ c1 ≤ 0xBF)
  else if b = 0xED then decide (0x80 ≤ c1 ∧ c1 ≤ 0x9F)
  else if b = 0xF0 then decide (0x90 ≤ c1 ∧ c1 ≤ 0xBF)
  else if b = 0xF4 then decide (0x80 ≤ c1 ∧ c1 ≤ 0x8F)
  else isCont c1

/-- Decode a single UTF-8 character from the front of a buffer, returning the
character and the remaining bytes; none on an invalid or incomplete sequence.
Non-recursive; the whole-buffer decoder iterates it. -/
def decodeOne : List Nat → Option (Char × List Nat)
  | [] => none
  | b :: rest =>
    if b < 0x80 then some (Char.ofNat b, rest)
    else if b < 0xC2 then none
    else if b ≤ 0xDF then
      match rest with
      | c1 :: r =>
        if isCont c1 then some (Char.ofNat ((b - 0xC0) * 0x40 + (c1 - 0x80)), r) else none
      | [] => none
    else if b ≤ 0xEF then
      match rest with
      | c1 :: c2 :: r =>
        if validFollow b c1 && isCont c2 then
          some (Char.ofNat ((b - 0xE0) * 0x1000 + (c1 - 0x80) * 0x40 + (c2 - 0x80)), r)
        else none
      | _ => none
    else if b ≤ 0xF4 then
      match rest with
      | c1 :: c2 :: c3 :: r =>
        if validFollow b c1 && isCont c2 && isCont c3 then
          some (Char.ofNat ((b - 0xF0) * 0x40000 + (c1 - 0x80) * 0x1000 +
            (c2 - 0x80) * 0x40 + (c3 - 0x80)), r)
        else none
      | _ => none
    else none

theorem decodeOne_length (l : List Nat) (c : Char) (r : List Nat)
    (h : decodeOne l = some (c, r)) : r.length < l.length := by
  rcases l with _ | ⟨b, rest⟩
  · simp [decodeOne] at h
  · rcases rest with _ | ⟨c1, _ | ⟨c2, _ | ⟨c3, rr⟩⟩⟩ <;>
      (simp only [decodeOne] at h
       split_ifs at h <;>
         first
           | (simp only [Option.some.injEq, Prod.mk.injEq] at h
              obtain ⟨rfl, rfl⟩ := h
              simp only [List.length_cons, List.length_nil]
              omega)
           | simp at h)

theorem decodeOne_append (l : List Nat) (c : Char) (r X : List Nat)
    (h : decodeOne l = some (c, r)) : decodeOne (l ++ X) = some (c, r ++ X) := by
  rcases l with _ | ⟨b, rest⟩
  · simp [decodeOne] at h
  · rcases rest with _ | ⟨c1, _ | ⟨c2, _ | ⟨c3, rr⟩⟩⟩ <;>
      (simp only [decodeOne, List.cons_append, List.nil_append] at h ⊢
       split_ifs at h ⊢ <;>
         first
           | (simp only [Option.some.injEq, Prod.mk.injEq] at h
              obtain ⟨rfl, rfl⟩ := h
              simp)
           | simp at h)

/-- Fuel-driven iteration of decodeOne (fuel bounds the number of characters,
hence the buffer length always suffices). -/
def utf8DecodeAux : Nat → List Nat → Option (List Char)
  | _, [] => some []
  | 0, _ :: _ => none
  | fuel + 1, b :: rest =>
    match decodeOne (b :: rest) with
    | none => none
    | some (c, r) => (utf8DecodeAux fuel r).map (c :: ·)

/-- Strict UTF-8 decode of a whole buffer; none models UnicodeDecodeError. -/
def utf8DecodeBytes (l : List Nat) : Option (List Char) := utf8DecodeAux l.length l

theorem utf8DecodeAux_irrel : ∀ (f1 : Nat) (l : List Nat) (f2 : Nat),
    l.length ≤ f1 → l.length ≤ f2 → utf8DecodeAux f1 l = utf8DecodeAux f2 l := by
  intro f1
  induction f1 with
  | zero =>
    intro l f2 h1 _
    have hl : l = [] := by cases l with | nil => rfl | cons a t => simp at h1
    subst hl
    cases f2 <;> rfl
  | succ f ih =>
    intro l f2 h1 h2
    cases l with
    | nil => cases f2 <;> rfl
    | cons b rest =>
      cases f2 with
      | zero => simp at h2
      | succ f2p =>
        simp only [utf8DecodeAux]
        cases hd : decodeOne (b :: rest) with
        | none => rfl
        | some cr =>
          obtain ⟨c, r⟩ := cr
          have hlt := decodeOne_length _ _ _ hd
          simp only [List.length_cons] at hlt h1 h2
          have heq := ih r f2p (by omega) (by omega)
          simp [heq]

theorem utf8DecodeBytes_cons (b : Nat) (rest : List Nat) :
    utf8DecodeBytes (b :: rest) =
      match decodeOne (b :: rest) with
      | none => none
      | some (c, r) => (utf8DecodeBytes r).map (c :: ·) := by
  unfold utf8DecodeBytes
  simp only [List.length_cons, utf8DecodeAux]
  cases hd : decodeOne (b :: rest) with
  | none => rfl
  | some cr =>
    obtain ⟨c, r⟩ := cr
    have hlt := decodeOne_length _ _ _ hd
    simp only [List.length_cons] at hlt
    have heq := utf8DecodeAux_irrel rest.length r r.length (by omega) (le_refl _)
    simp [heq, utf8DecodeBytes]

theorem utf8DecodeBytes_append (X : List Nat) :
    ∀ (V : List Nat) (s : List Char), utf8DecodeBytes V = some s →
      utf8DecodeBytes (V ++ X) = (utf8DecodeBytes X).map (s ++ ·) := by
  have main : ∀ (n : Nat) (V : List Nat) (s : List Char), V.length ≤ n →
      utf8DecodeBytes V = some s →
      utf8DecodeBytes (V ++ X) = (utf8DecodeBytes X).map (s ++ ·) := by
    intro n
    induction n with
    | zero =>
      intro V s h1 hV
      have hl : V = [] := by cases V with | nil => rfl | cons a t => simp at h1
      subst hl
      obtain rfl : s = [] := by
        have : (some [] : Option (List Char)) = some s := hV
        exact (Option.some.injEq _ _ ▸ this).symm
      cases hX : utf8DecodeBytes X <;> simp [hX]
    | succ n ih =>
      intro V s h1 hV
      cases V with
      | nil =>
        obtain rfl : s = [] := by
          have : (some [] : Option (List Char)) = some s := hV
          exact (Option.some.injEq _ _ ▸ this).symm
        cases hX : utf8DecodeBytes X <;> simp [hX]
      | cons b rest =>
        rw [utf8DecodeBytes_cons] at hV
        cases hd : decodeOne (b :: rest) with
        | none => simp [hd] at hV
        | some cr =>
          obtain ⟨c, r⟩ := cr
          simp only [hd] at hV
          cases h0 : utf8DecodeBytes r with
          | none => simp [h0] at hV
          | some s0 =>
            simp only [h0, Option.map_some] at hV
            obtain rfl : c :: s0 = s := by simpa using hV
            have hlt := decodeOne_length _ _ _ hd
            have happ := decodeOne_append _ _ _ X hd
            rw [List.cons_append] at happ
            have hih := ih r s0 (by simp only [List.length_cons] at h1 hlt; omega) h0
            rw [List.cons_append, utf8DecodeBytes_cons]
            simp only [happ, hih]
            cases utf8DecodeBytes X <;> simp
  exact fun V s h => main V.length V s (le_refl _) h

/-- Python slice chunk[:-n] on byte buffers (empty result when n exceeds the
length, as in Python). -/
def dropLastN (n : Nat) (l : List Nat) : List Nat := l.take (l.length - n)

/-- Python slice chunk[-n:] on byte buffers. -/
def lastN (n : Nat) (l : List Nat) : List Nat := l.drop (l.length - n)

/-- Embeds decode_utf8_chunk (sync.py lines 52-71): try to decode the whole
chunk, then retry with 1, 2, 3 trailing bytes removed; if the fourth attempt
also fails, the UnicodeDecodeError propagates (none). -/
def decode_utf8_chunk (chunk : List Nat) : Option (List Char × List Nat) :=
  match utf8DecodeBytes chunk with
  | some u => some (u, [])
  | none =>
    match utf8DecodeBytes (dropLastN 1 chunk) with
    | some u => some (u, lastN 1 chunk)
    | none =>
      match utf8DecodeBytes (dropLastN 2 chunk) with
      | some u => some (u, lastN 2 chunk)
      | none =>
        match utf8DecodeBytes (dropLastN 3 chunk) with
        | some u => some (u, lastN 3 chunk)
        | none => none

/-- Proper prefix (0 to 3 bytes) of the encoding of a single multi-byte UTF-8
character: exactly the suffixes that a split mid-character can leave behind. -/
def isTruncatedChar : List Nat → Bool
  | [] => true
  | [b] => decide (0xC2 ≤ b ∧ b ≤ 0xF4)
  | [b, c1] => decide (0xE0 ≤ b ∧ b ≤ 0xF4) && validFollow b c1
  | [b, c1, c2] => decide (0xF0 ≤ b ∧ b ≤ 0xF4) && validFollow b c1 && isCont c2
  | _ => false

theorem decodeOne_truncated (T : List Nat) (hT : isTruncatedChar T = true)
    (hne : T ≠ []) : decodeOne T = none := by
  rcases T with _ | ⟨b, _ | ⟨c1, _ | ⟨c2, _ | ⟨c3, rr⟩⟩⟩⟩
  · exact absurd rfl hne
  · simp only [isTruncatedChar, decide_eq_true_eq] at hT
    simp only [decodeOne]
    split_ifs <;> first | rfl | omega
  · simp only [isTruncatedChar, Bool.and_eq_true, decide_eq_true_eq] at hT
    simp only [decodeOne]
    split_ifs <;> first | rfl | omega
  · simp only [isTruncatedChar, Bool.and_eq_true, decide_eq_true_eq] at hT
    simp only [decodeOne]
    split_ifs <;> first | rfl | omega
  · simp [isTruncatedChar] at hT

theorem utf8DecodeBytes_truncated (T : List Nat) (hT : isTruncatedChar T = true)
    (hne : T ≠ []) : utf8DecodeBytes T = none := by
  cases T with
  | nil => exact absurd rfl hne
  | cons b rest => simp [utf8DecodeBytes_cons, decodeOne_truncated _ hT hne]

theorem utf8DecodeBytes_append_truncated (V T : List Nat) (s : List Char)
    (hV : utf8DecodeBytes V = some s) (hT : isTruncatedChar T = true)
    (hne : T ≠ []) : utf8DecodeBytes (V ++ T) = none := by
  rw [utf8DecodeBytes_append T V s hV, utf8DecodeBytes_truncated T hT hne]
  rfl

theorem dropLastN_append (V T : List Nat) : dropLastN T.length (V ++ T) = V := by
  unfold dropLastN
  rw [List.length_append, Nat.add_sub_cancel]
  exact List.take_left V T

theorem lastN_append (V T : List Nat) : lastN T.length (V ++ T) = T := by
  unfold lastN
  rw [List.length_append, Nat.add_sub_cancel]
  exact List.drop_left V T

/-- C5: for every byte buffer consisting of valid UTF-8 text followed by 0-3
trailing bytes of a truncated multi-byte character, decode_utf8_chunk returns
the decoded text prefix together with exactly the truncated trailing bytes;
prepending that leftover to the next chunk recombines to the decoding of the
unsplit buffer; and when even trimming 3 trailing bytes cannot produce a valid
decode, the decode error propagates instead of being swallowed. -/
theorem decode_utf8_chunk_correct (V T : List Nat) (s : List Char)
    (hV : utf8DecodeBytes V = some s) (hT : isTruncatedChar T = true) :
    decode_utf8_chunk (V ++ T) = some (s, T) ∧
    (∀ B r, utf8DecodeBytes (T ++ B) = some r →
        utf8DecodeBytes ((V ++ T) ++ B) = some (s ++ r)) ∧
    (∀ chunk, utf8DecodeBytes chunk = none →
        utf8DecodeBytes (dropLastN 1 chunk) = none →
        utf8DecodeBytes (dropLastN 2 chunk) = none →
        utf8DecodeBytes (dropLastN 3 chunk) = none →
        decode_utf8_chunk chunk = none) := by
  refine ⟨?_, ?_, ?_⟩
  · rcases T with _ | ⟨b, _ | ⟨c1, _ | ⟨c2, _ | ⟨c3, rr⟩⟩⟩⟩
    · simp only [List.append_nil, decode_utf8_chunk, hV]
    · have h0 : utf8DecodeBytes (V ++ [b]) = none :=
        utf8DecodeBytes_append_truncated V [b] s hV hT (by simp)
      have hd1 : dropLastN 1 (V ++ [b]) = V := by
        have := dropLastN_append V [b]; simpa using this
      have hl1 : lastN 1 (V ++ [b]) = [b] := by
        have := lastN_append V [b]; simpa using this
      simp only [decode_utf8_chunk, h0, hd1, hl1, hV]
    · simp only [isTruncatedChar, Bool.and_eq_true, decide_eq_true_eq] at hT
      have hTb : isTruncatedChar [b] = true := by
        simp only [isTruncatedChar, decide_eq_true_eq]; omega
      have hsplit : V ++ [b, c1] = (V ++ [b]) ++ [c1] := by simp
      have h0 : utf8DecodeBytes (V ++ [b, c1]) = none :=
        utf8DecodeBytes_append_truncated V [b, c1] s hV
          (by simp only [isTruncatedChar, Bool.and_eq_true, decide_eq_true_eq]
              exact ⟨by omega, hT.2⟩) (by simp)
      have hVb : utf8DecodeBytes (V ++ [b]) = none :=
        utf8DecodeBytes_append_truncated V [b] s hV hTb (by simp)
      have hd1 : dropLastN 1 (V ++ [b, c1]) = V ++ [b] := by
        rw [hsplit]
        have := dropLastN_append (V ++ [b]) [c1]; simpa using this
      have hd2 : dropLastN 2 (V ++ [b, c1]) = V := by
        have := dropLastN_append V [b, c1]; simpa using this
      have hl2 : lastN 2 (V ++ [b, c1]) = [b, c1] := by
        have := lastN_append V [b, c1]; simpa using this
      simp only [decode_utf8_chunk, h0, hd1, hVb, hd2, hl2, hV]
    · simp only [isTruncatedChar, Bool.and_eq_true, decide_eq_true_eq] at hT
      have hTb : isTruncatedChar [b] = true := by
        simp only [isTruncatedChar, decide_eq_true_eq]; omega
      have hTbc : isTruncatedChar [b, c1] = true := by
        simp only [isTruncatedChar, Bool.and_eq_true, decide_eq_true_eq]
        exact ⟨by omega, hT.1.2⟩
      have h0 : utf8DecodeBytes (V ++ [b, c1, c2]) = none :=
        utf8DecodeBytes_append_truncated V [b, c1, c2] s hV
          (by simp only [isTruncatedChar, Bool.and_eq_true, decide_eq_true_eq]
              exact ⟨⟨by omega, hT.1.2⟩, hT.2⟩) (by simp)
      have hVbc : utf8DecodeBytes (V ++ [b, c1]) = none :=
        utf8DecodeBytes_append_truncated V [b, c1] s hV hTbc (by simp)
      have hVb : utf8DecodeBytes (V ++ [b]) = none :=
        utf8DecodeBytes_append_truncated V [b] s hV hTb (by simp)
      have hs1 : V ++ [b, c1, c2] = (V ++ [b, c1]) ++ [c2] := by simp
      have hs2 : V ++ [b, c1, c2] = (V ++ [b]) ++ [c1, c2] := by simp
      have hd1 : dropLastN 1 (V ++ [b, c1, c2]) = V ++ [b, c1] := by
        rw [hs1]
        have := dropLastN_append (V ++ [b, c1]) [c2]; simpa using this
      have hd2 : dropLastN 2 (V ++ [b, c1, c2]) = V ++ [b] := by
        rw [hs2]
        have := dropLastN_append (V ++ [b]) [c1, c2]; simpa using this
      have hd3 : dropLastN 3 (V ++ [b, c1, c2]) = V := by
        have := dropLastN_append V [b, c1, c2]; simpa using this
      have hl3 : lastN 3 (V ++ [b, c1, c2]) = [b, c1, c2] := by
        have := lastN_append V [b, c1, c2]; simpa using this
      simp only [decode_utf8_chunk, h0, hd1, hVbc, hd2, hVb, hd3, hl3, hV]
    · simp [isTruncatedChar] at hT
  · intro B r hTB
    rw [List.append_assoc, utf8DecodeBytes_append (T ++ B) V s hV, hTB]
    rfl
  · intro chunk hc h1 h2 h3
    simp only [decode_utf8_chunk, hc, h1, h2, h3]

/-- Witness for C5: the euro sign E2 82 AC split after its second byte,
following the ASCII byte for A. -/
theorem decode_utf8_chunk_correct_witness :
    decode_utf8_chunk ([0x41] ++ [0xE2, 0x82]) = some (['A'], [0xE2, 0x82]) ∧
    utf8DecodeBytes (([0x41] ++ [0xE2, 0x82]) ++ [0xAC, 0x42]) =
      some (['A'] ++ ['€', 'B']) :=
  ⟨(decode_utf8_chunk_correct [0x41] [0xE2, 0x82] ['A'] (by decide) (by decide)).1,
   (decode_utf8_chunk_correct [0x41] [0xE2, 0x82] ['A'] (by decide)
      (by decide)).2.1 [0xAC, 0x42] ['€', 'B'] (by decide)⟩

/-! ### Streaming CSV parsing (gen_export_rows, sync.py lines 73-134)

The source splits each decoded chunk with unicode_chunk.splitlines(keepends=True)
and feeds the line list to csv.reader(lines, delimiter=',', quotechar='"').
Because every splitlines element except the last keeps its terminator, the
reader's per-element processing coincides with one pass of the CSV state
machine over the concatenated text; `csvParseChars` is that state machine
(Python csv dialect: delimiter comma, quotechar double quote, doublequote
escaping, non-strict mode, record terminators LF, CRLF and CR). -/

inductive CsvMode where
  | recordStart
  | fieldStart
  | inField
  | inQuoted
  | afterQuote
  | afterCR
deriving DecidableEq

structure CsvSt where
  rows : List (List String)
  fields : List String
  cur : List Char
  mode : CsvMode
deriving DecidableEq

/-- Handling of a character at the start of a record (also used to re-dispatch
the character following a lone CR). -/
def csvStartChar (st : CsvSt) (c : Char) : CsvSt :=
  if c = '"' then { st with mode := .inQuoted }
  else if c = ',' then { st with fields := st.fields ++ [""], mode := .fieldStart }
  else if c = '\n' then { st with rows := st.rows ++ [[]], mode := .recordStart }
  else if c = '\r' then { st with rows := st.rows ++ [[]], mode := .afterCR }
  else { st with cur := [c], mode := .inField }

def csvStep (st : CsvSt) (c : Char) : CsvSt :=
  match st.mode with
  | .recordStart => csvStartChar st c
  | .afterCR =>
    if c = '\n' then { st with mode := .recordStart }
    else csvStartChar { st with mode := .recordStart } c
  | .fieldStart =>
    if c = '"' then { st with mode := .inQuoted }
    else if c = ',' then { st with fields := st.fields ++ [""] }
    else if c = '\n' then
      { st with
          rows := st.rows ++ [st.fields ++ [""]]
          fields := []
          mode := .recordStart }
    else if c = '\r' then
      { st with
          rows := st.rows ++ [st.fields ++ [""]]
          fields := []
          mode := .afterCR }
    else { st with cur := [c], mode := .inField }
  | .inField =>
    if c = ',' then
      { st with fields := st.fields ++ [String.mk st.cur], cur := [], mode := .fieldStart }
    else if c = '\n' then
      { st with
          rows := st.rows ++ [st.fields ++ [String.mk st.cur]]
          fields := []
          cur := []
          mode := .recordStart }
    else if c = '\r' then
      { st with
          rows := st.rows ++ [st.fields ++ [String.mk st.cur]]
          fields := []
          cur := []
          mode := .afterCR }
    else { st with cur := st.cur ++ [c] }
  | .inQuoted =>
    if c = '"' then { st with mode := .afterQuote }
    else { st with cur := st.cur ++ [c] }
  | .afterQuote =>
    if c = '"' then { st with cur := st.cur ++ [c], mode := .inQuoted }
    else if c = ',' then
      { st with fields := st.fields ++ [String.mk st.cur], cur := [], mode := .fieldStart }
    else if c = '\n' then
      { st with
          rows := st.rows ++ [st.fields ++ [String.mk st.cur]]
          fields := []
          cur := []
          mode := .recordStart }
    else if c = '\r' then
      { st with
          rows := st.rows ++ [st.fields ++ [String.mk st.cur]]
          fields := []
          cur := []
          mode := .afterCR }
    else { st with cur := st.cur ++ [c], mode := .inField }

/-- Flush the pending record at end of input (csv.reader yields a final record
even without a trailing terminator, including after an unterminated quote). -/
def csvFinish (st : CsvSt) : List (List String) :=
  match st.mode with
  | .recordStart => st.rows
  | .afterCR => st.rows
  | .fieldStart => st.rows ++ [st.fields ++ [""]]
  | .inField => st.rows ++ [st.fields ++ [String.mk st.cur]]
  | .inQuoted => st.rows ++ [st.fields ++ [String.mk st.cur]]
  | .afterQuote => st.rows ++ [st.fields ++ [String.mk st.cur]]

def csvInit : CsvSt := ⟨[], [], [], .recordStart⟩

/-- Model of list(csv.reader(text.splitlines(keepends=True), delimiter=',',
quotechar='"')). -/
def csvParseChars (cs : List Char) : List (List String) :=
  csvFinish (cs.foldl csvStep csvInit)

/-- A yielded row dictionary: dict(zip(headers, row)). -/
def dictZip (headers row : List String) : List (String × String) :=
  List.zip headers row

inductive CsvError where
  | nonRectangular (headers row : List String)  -- NonRectangularCsvRow(headers, row)
  | indexError                                  -- list.pop from an empty list
  | typeError                                   -- len(None) when the loop never ran
  | unicodeError                                -- decode failure beyond the 3-byte fallback
  | outOfFuel                                   -- loop bound; unreachable for chunk_size >= 1
deriving DecidableEq

deriving instance DecidableEq for Except

/-- Embeds download_chunk (sync.py lines 41-45): an HTTP GET with header
Range: bytes=start-(start+chunk_size).  HTTP byte ranges are inclusive at both
ends, so a compliant server returns chunk_size+1 bytes (clipped at end of
file); the source's loop nonetheless advances start by only chunk_size. -/
def download_chunk (file : List Nat) (start chunk_size : Nat) : List Nat :=
  (file.drop start).take (chunk_size + 1)

/-- Embeds get_export_size (sync.py lines 47-50): the exported file size. -/
def get_export_size (file : List Nat) : Nat := file.length

/-- The row-emission loop of gen_export_rows (sync.py lines 121-125): raise
NonRectangularCsvRow on the first row whose field count differs from the
header's, otherwise append dict(zip(headers, row)).  The source spells the
yielded expression dict(zip(headers, line)) where line is an unbound name (a
NameError at runtime); modelled as the loop variable row, the only sensible
referent (reported as a code bug under C1). -/
def yieldRows (headers : List String) :
    List (List String) → List (List (String × String)) →
      Except CsvError (List (List (String × String)))
  | [], acc => .ok acc
  | row :: rest, acc =>
    if row.length ≠ headers.length then .error (.nonRectangular headers row)
    else yieldRows headers rest (acc ++ [dictZip headers row])

/-- Header handling on each pass (sync.py lines 112-113): pop row 0 as the
header on the first chunk only; list.pop(0) on an empty list is an IndexError. -/
def popHeaders (headers : Option (List String)) (reader_rows : List (List String)) :
    Option (List String × List (List String)) :=
  match headers with
  | some h => some (h, reader_rows)
  | none =>
    match reader_rows with
    | [] => none
    | h :: t => some (h, t)

/-- One chunk of the download loop body (sync.py lines 94-117): download,
prepend leftover bytes, decode retaining partial-character bytes, prepend
leftover chars, parse as CSV, pop the header on the first pass, hold back the
last parsed row and re-join it with "," for the next pass.  The source calls
download_utf8_chunk and decode_chunk, names that are defined nowhere in the
repository (NameError at runtime); they are modelled as download_chunk and
decode_utf8_chunk, the uniquely matching definitions (reported under C1).
Returns (new leftover bytes, headers, body rows, held-back row, new leftover
chars). -/
def processChunk (file : List Nat) (chunk_size start : Nat) (leftover_bytes : List Nat)
    (headers : Option (List String)) (leftover_chars : List Char) :
    Except CsvError
      (List Nat × List String × List (List String) × List String × List Char) :=
  let byte_chunk := leftover_bytes ++ download_chunk file start chunk_size
  match decode_utf8_chunk byte_chunk with
  | none => .error .unicodeError
  | some (u, lb2) =>
    let unicode_chunk := leftover_chars ++ u
    let reader_rows := csvParseChars unicode_chunk
    match popHeaders headers reader_rows with
    | none => .error .indexError
    | some (h, rows2) =>
      match rows2.getLast? with
      | none => .error .indexError
      | some lrow =>
        .ok (lb2, h, rows2.dropLast, lrow, (String.intercalate "," lrow).data)

/-- Final step after the download loop (sync.py lines 130-134): shape-check
and yield the held-back row; when the loop never ran, headers and leftover_row
are still None and len(None) raises TypeError. -/
def genFinal (headers leftover_row : Option (List String))
    (acc : List (List (String × String))) :
    Except CsvError (List (List (String × String))) :=
  match headers, leftover_row with
  | some h, some lrow =>
    if lrow.length ≠ h.length then .error (.nonRectangular h lrow)
    else .ok (acc ++ [dictZip h lrow])
  | _, _ => .error .typeError

/-- The download loop of gen_export_rows (sync.py lines 93-128), with fuel
bounding the iteration count (irrelevant for chunk_size >= 1, where the loop
runs at most ceil(size / chunk_size) times). -/
def gen_export_rows_loop (file : List Nat) (chunk_size : Nat) :
    Nat → Nat → List Nat → Option (List String) → List Char → Option (List String) →
      List (List (String × String)) → Except CsvError (List (List (String × String)))
  | fuel, start, lb, headers, lc, lr, acc =>
    if start < get_export_size file then
      match fuel with
      | 0 => .error .outOfFuel
      | fuel + 1 =>
        match processChunk file chunk_size start lb headers lc with
        | .error e => .error e
        | .ok (lb2, h, body, lrow, lc2) =>
          match yieldRows h body acc with
          | .error e => .error e
          | .ok acc2 =>
            gen_export_rows_loop file chunk_size fuel (start + chunk_size) lb2 (some h)
              lc2 (some lrow) acc2
    else genFinal headers lr acc

/-- Embeds gen_export_rows (sync.py lines 73-134) as the list of row
dictionaries the generator yields, or the exception it raises. -/
def gen_export_rows (file : List Nat) (chunk_size : Nat) :
    Except CsvError (List (List (String × String))) :=
  gen_export_rows_loop file chunk_size (file.length + 1) 0 [] none [] none []

/-- Modelled from the spec: parsing the unsplit payload in one pass — decode
everything, parse the CSV, take the first row as the header and yield one
dictionary per remaining row, in order.  This is the comparator the spec's
streaming-equals-one-pass property refers to. -/
def one_pass_export_rows (file : List Nat) :
    Except CsvError (List (List (String × String))) :=
  match utf8DecodeBytes file with
  | none => .error .unicodeError
  | some text =>
    match csvParseChars text with
    | [] => .error .indexError
    | h :: rows => yieldRows h rows []

/-- ASCII payloads as byte lists. -/
def strBytes (s : String) : List Nat := s.data.map Char.toNat

/-- A 12-byte CSV payload: header a,b then rows c,d and e,f. -/
def demoCsvFile : List Nat := strBytes "a,b\nc,d\ne,f\n"

/-- C1 (code bug): streaming gen_export_rows over chunks is NOT equivalent to
parsing the unsplit payload in one pass.  At chunk size 5 the inclusive HTTP
Range header re-downloads the byte at each chunk boundary (bytes=0-5 and
bytes=5-10 overlap at offset 5), so a plain 12-byte payload re-parses with a
duplicated comma and the stream aborts with NonRectangularCsvRow, while the
one-pass parse yields the two correct row dictionaries.  (In the unmodified
source the generator cannot run at all: download_utf8_chunk, decode_chunk and
the yielded name line are unbound names, raising NameError on any input; the
model resolves them to their evident referents, see the doc comments above.) -/
theorem gen_export_rows_differs_from_one_pass :
    gen_export_rows demoCsvFile 5 =
      .error (.nonRectangular ["a", "b"] ["c", "", "d"]) ∧
    one_pass_export_rows demoCsvFile =
      .ok [[("a", "c"), ("b", "d")], [("a", "e"), ("b", "f")]] ∧
    gen_export_rows demoCsvFile 5 ≠ one_pass_export_rows demoCsvFile := by
  refine ⟨by decide, by decide, by decide⟩

theorem yieldRows_err (headers : List String) :
    ∀ (rows : List (List String)) (acc : List (List (String × String)))
      (h2 row : List String),
      yieldRows headers rows acc = .error (.nonRectangular h2 row) →
      row.length ≠ h2.length := by
  intro rows
  induction rows with
  | nil => intro acc h2 row h; simp [yieldRows] at h
  | cons r0 rest ih =>
    intro acc h2 row h
    simp only [yieldRows] at h
    split_ifs at h with hlen
    · simp only [Except.error.injEq, CsvError.nonRectangular.injEq] at h
      obtain ⟨rfl, rfl⟩ := h
      exact hlen
    · exact ih _ h2 row h

theorem yieldRows_ok (headers : List String) :
    ∀ (rows : List (List String)) (acc out : List (List (String × String))),
      yieldRows headers rows acc = .ok out →
      (∀ d ∈ acc, d.map Prod.fst = headers ∧ d.length = headers.length) →
      ∀ d ∈ out, d.map Prod.fst = headers ∧ d.length = headers.length := by
  intro rows
  induction rows with
  | nil =>
    intro acc out h hacc
    simp only [yieldRows, Except.ok.injEq] at h
    subst h
    exact hacc
  | cons r0 rest ih =>
    intro acc out h hacc
    simp only [yieldRows] at h
    split_ifs at h with hlen
    push_neg at hlen
    refine ih _ _ h ?_
    intro d hd
    rcases List.mem_append.mp hd with hd | hd
    · exact hacc d hd
    · simp only [List.mem_singleton] at hd
      subst hd
      refine ⟨List.map_fst_zip headers r0 (le_of_eq hlen.symm), ?_⟩
      simp [dictZip, hlen]

theorem processChunk_no_nonRect (file : List Nat) (cs start : Nat) (lb : List Nat)
    (headers : Option (List String)) (lc : List Char) (h2 row : List String) :
    processChunk file cs start lb headers lc ≠ .error (.nonRectangular h2 row) := by
  intro h
  simp only [processChunk] at h
  split at h
  · simp at h
  · split at h
    · simp at h
    · split at h
      · simp at h
      · simp at h

theorem processChunk_headers_some (file : List Nat) (cs start : Nat) (lb : List Nat)
    (h : List String) (lc : List Char)
    (out : List Nat × List String × List (List String) × List String × List Char)
    (heq : processChunk file cs start lb (some h) lc = .ok out) : out.2.1 = h := by
  simp only [processChunk, popHeaders] at heq
  split at heq
  · simp at heq
  · split at heq
    · simp at heq
    · simp only [Except.ok.injEq] at heq
      subst heq
      rfl

theorem genFinal_err (headers lr : Option (List String))
    (acc : List (List (String × String))) (h2 row : List String) :
    genFinal headers lr acc = .error (.nonRectangular h2 row) →
      row.length ≠ h2.length := by
  intro h
  unfold genFinal at h
  split at h
  · split_ifs at h with hlen
    simp only [Except.error.injEq, CsvError.nonRectangular.injEq] at h
    obtain ⟨rfl, rfl⟩ := h
    exact hlen
  · simp at h

theorem genFinal_ok (h : List String) (lr : Option (List String))
    (acc out : List (List (String × String)))
    (heq : genFinal (some h) lr acc = .ok out)
    (hacc : ∀ d ∈ acc, d.map Prod.fst = h ∧ d.length = h.length) :
    ∀ d ∈ out, d.map Prod.fst = h ∧ d.length = h.length := by
  cases lr with
  | none => simp [genFinal] at heq
  | some lrow =>
    simp only [genFinal] at heq
    split_ifs at heq with hlen
    push_neg at hlen
    simp only [Except.ok.injEq] at heq
    subst heq
    intro d hd
    rcases List.mem_append.mp hd with hd | hd
    · exact hacc d hd
    · simp only [List.mem_singleton] at hd
      subst hd
      exact ⟨List.map_fst_zip h lrow (le_of_eq hlen.symm), by simp [dictZip, hlen]⟩

theorem gen_export_rows_loop_err (file : List Nat) (cs : Nat) :
    ∀ (fuel start : Nat) (lb : List Nat) (headers : Option (List String))
      (lc : List Char) (lr : Option (List String))
      (acc : List (List (String × String))) (h2 row : List String),
      gen_export_rows_loop file cs fuel start lb headers lc lr acc =
        .error (.nonRectangular h2 row) → row.length ≠ h2.length := by
  intro fuel
  induction fuel with
  | zero =>
    intro start lb headers lc lr acc h2 row h
    simp only [gen_export_rows_loop] at h
    split_ifs at h
    · simp at h
    · exact genFinal_err _ _ _ _ _ h
  | succ fuel ih =>
    intro start lb headers lc lr acc h2 row h
    simp only [gen_export_rows_loop] at h
    split_ifs at h
    · split at h
      · rename_i e heqP
        simp only [Except.error.injEq] at h
        subst h
        exact absurd heqP (processChunk_no_nonRect _ _ _ _ _ _ _ _)
      · split at h
        · rename_i e heqY
          simp only [Except.error.injEq] at h
          subst h
          exact yieldRows_err _ _ _ _ _ heqY
        · exact ih _ _ _ _ _ _ _ _ h
    · exact genFinal_err _ _ _ _ _ h

theorem gen_export_rows_loop_ok (file : List Nat) (cs : Nat) :
    ∀ (fuel start : Nat) (lb : List Nat) (h : List String) (lc : List Char)
      (lr : Option (List String)) (acc out : List (List (String × String))),
      gen_export_rows_loop file cs fuel start lb (some h) lc lr acc = .ok out →
      (∀ d ∈ acc, d.map Prod.fst = h ∧ d.length = h.length) →
      ∀ d ∈ out, d.map Prod.fst = h ∧ d.length = h.length := by
  intro fuel
  induction fuel with
  | zero =>
    intro start lb h lc lr acc out heq hacc
    simp only [gen_export_rows_loop] at heq
    split_ifs at heq
    exact genFinal_ok _ _ _ _ heq hacc
  | succ fuel ih =>
    intro start lb h lc lr acc out heq hacc
    simp only [gen_export_rows_loop] at heq
    split_ifs at heq
    · split at heq
      · simp at heq
      · rename_i lb2 hh body lrow lc2 heqP
        have hheads := processChunk_headers_some _ _ _ _ _ _ _ heqP
        simp only at hheads
        subst hheads
        split at heq
        · simp at heq
        · rename_i acc2 heqY
          exact ih _ _ _ _ _ _ _ heq (yieldRows_ok _ _ _ _ heqY hacc)
    · exact genFinal_ok _ _ _ _ heq hacc

theorem yieldRows_mismatch (headers : List String) :
    ∀ (rows : List (List String)) (acc : List (List (String × String))),
      (∃ r ∈ rows, r.length ≠ headers.length) →
      ∃ r, r ∈ rows ∧ r.length ≠ headers.length ∧
        yieldRows headers rows acc = .error (.nonRectangular headers r) := by
  intro rows
  induction rows with
  | nil => intro acc hex; simp at hex
  | cons r0 rest ih =>
    intro acc hex
    by_cases h0 : r0.length ≠ headers.length
    · refine ⟨r0, List.mem_cons_self _ _, h0, ?_⟩
      simp only [yieldRows]
      rw [if_pos h0]
    · have hex2 : ∃ r ∈ rest, r.length ≠ headers.length := by
        obtain ⟨r, hr, hlen⟩ := hex
        rcases List.mem_cons.mp hr with heq | hr2
        · exact absurd (heq ▸ hlen) h0
        · exact ⟨r, hr2, hlen⟩
      obtain ⟨r, hr, hlen, herr⟩ := ih (acc ++ [dictZip headers r0]) hex2
      refine ⟨r, List.mem_cons_of_mem _ hr, hlen, ?_⟩
      simp only [yieldRows]
      rw [if_neg h0]
      exact herr

theorem genFinal_mismatch (h lrow : List String) (acc : List (List (String × String)))
    (hlen : lrow.length ≠ h.length) :
    genFinal (some h) (some lrow) acc = .error (.nonRectangular h lrow) := by
  simp only [genFinal]
  rw [if_pos hlen]

theorem gen_export_rows_loop_mismatch (file : List Nat) (cs fuel start : Nat)
    (lb : List Nat) (headers : Option (List String)) (lc : List Char)
    (lr : Option (List String)) (acc : List (List (String × String)))
    (lb2 : List Nat) (h : List String) (body : List (List String))
    (lrow : List String) (lc2 : List Char)
    (hlt : start < file.length)
    (heqP : processChunk file cs start lb headers lc = .ok (lb2, h, body, lrow, lc2))
    (hex : ∃ r ∈ body, r.length ≠ h.length) :
    ∃ r, r ∈ body ∧ r.length ≠ h.length ∧
      gen_export_rows_loop file cs (fuel + 1) start lb headers lc lr acc =
        .error (.nonRectangular h r) := by
  obtain ⟨r, hr, hlen, herr⟩ := yieldRows_mismatch h body acc hex
  refine ⟨r, hr, hlen, ?_⟩
  simp only [gen_export_rows_loop, get_export_size]
  rw [if_pos hlt]
  simp only [heqP, herr]

/-- C6: every parsed CSV row whose field count differs from the header's
causes gen_export_rows to raise NonRectangularCsvRow carrying the header and
the offending row; a mismatched row is never silently truncated, padded, or
yielded as a record.  In order: (a) a mismatched row among the rows of a
chunk body always makes the row-emission loop raise, never return; (b) the
held-back final row likewise at the post-loop check; (c) lifted through the
download loop, any reached chunk whose parsed body contains a mismatched row
makes the whole run raise; (d) at loop exit a mismatched held-back row makes
the run raise; (e) the same at the gen_export_rows entry point for the first
chunk; (f) conversely, every raised NonRectangularCsvRow carries a genuinely
mismatched row, and every dictionary of a successful run has exactly the
header's fields in header order. -/
theorem gen_export_rows_row_shape :
    (∀ (headers : List String) (rows : List (List String))
        (acc : List (List (String × String))),
       (∃ r ∈ rows, r.length ≠ headers.length) →
       ∃ r, r ∈ rows ∧ r.length ≠ headers.length ∧
         yieldRows headers rows acc = .error (.nonRectangular headers r)) ∧
    (∀ (h lrow : List String) (acc : List (List (String × String))),
       lrow.length ≠ h.length →
       genFinal (some h) (some lrow) acc = .error (.nonRectangular h lrow)) ∧
    (∀ (file : List Nat) (cs fuel start : Nat) (lb : List Nat)
        (headers : Option (List String)) (lc : List Char) (lr : Option (List String))
        (acc : List (List (String × String))) (lb2 : List Nat) (h : List String)
        (body : List (List String)) (lrow : List String) (lc2 : List Char),
       start < file.length →
       processChunk file cs start lb headers lc = .ok (lb2, h, body, lrow, lc2) →
       (∃ r ∈ body, r.length ≠ h.length) →
       ∃ r, r ∈ body ∧ r.length ≠ h.length ∧
         gen_export_rows_loop file cs (fuel + 1) start lb headers lc lr acc =
           .error (.nonRectangular h r)) ∧
    (∀ (file : List Nat) (cs fuel start : Nat) (lb : List Nat) (h : List String)
        (lc : List Char) (lrow : List String) (acc : List (List (String × String))),
       ¬ start < file.length → lrow.length ≠ h.length →
       gen_export_rows_loop file cs fuel start lb (some h) lc (some lrow) acc =
         .error (.nonRectangular h lrow)) ∧
    (∀ (file : List Nat) (cs : Nat) (lb2 : List Nat) (h : List String)
        (body : List (List String)) (lrow : List String) (lc2 : List Char),
       0 < file.length →
       processChunk file cs 0 [] none [] = .ok (lb2, h, body, lrow, lc2) →
       (∃ r ∈ body, r.length ≠ h.length) →
       ∃ r, r ∈ body ∧ r.length ≠ h.length ∧
         gen_export_rows file cs = .error (.nonRectangular h r)) ∧
    (∀ (file : List Nat) (cs : Nat) (h row : List String),
        gen_export_rows file cs = .error (.nonRectangular h row) →
          row.length ≠ h.length) ∧
    (∀ (file : List Nat) (cs : Nat) (out : List (List (String × String))),
        gen_export_rows file cs = .ok out →
        ∃ h, ∀ d ∈ out, d.map Prod.fst = h ∧ d.length = h.length) := by
  refine ⟨yieldRows_mismatch, genFinal_mismatch, gen_export_rows_loop_mismatch,
    ?_, ?_, ?_, ?_⟩
  · intro file cs fuel start lb h lc lrow acc hge hlen
    have hge2 : ¬ start < get_export_size file := hge
    cases fuel with
    | zero =>
      simp only [gen_export_rows_loop]
      rw [if_neg hge2]
      exact genFinal_mismatch h lrow acc hlen
    | succ f =>
      simp only [gen_export_rows_loop]
      rw [if_neg hge2]
      exact genFinal_mismatch h lrow acc hlen
  · intro file cs lb2 h body lrow lc2 hlt heqP hex
    unfold gen_export_rows
    exact gen_export_rows_loop_mismatch file cs file.length 0 [] none [] none []
      lb2 h body lrow lc2 hlt heqP hex
  · intro file cs h row heq
    unfold gen_export_rows at heq
    exact gen_export_rows_loop_err file cs _ _ _ _ _ _ _ _ _ heq
  · intro file cs out heq
    unfold gen_export_rows at heq
    simp only [gen_export_rows_loop] at heq
    split_ifs at heq
    · split at heq
      · simp at heq
      · rename_i lb2 hh body lrow lc2 heqP
        split at heq
        · simp at heq
        · rename_i acc2 heqY
          exact ⟨hh, gen_export_rows_loop_ok file cs _ _ _ _ _ _ _ _ heq
            (yieldRows_ok _ _ _ _ heqY (by simp))⟩
    · simp [genFinal] at heq

/-- A payload whose first chunk body holds the 3-field row c,d,e under a
2-field header. -/
def mismatchCsvFile : List Nat := strBytes "a,b\nc,d,e\nf,g\n"

/-- Witness for C6: the mismatched row c,d,e makes gen_export_rows raise
NonRectangularCsvRow carrying the header and that row; the post-loop check
raises on a mismatched held-back row; and the ok side at a clean payload. -/
theorem gen_export_rows_row_shape_witness :
    (∃ r, r ∈ [["c", "d", "e"]] ∧ r.length ≠ (["a", "b"] : List String).length ∧
       gen_export_rows mismatchCsvFile 100 = .error (.nonRectangular ["a", "b"] r)) ∧
    genFinal (some ["a", "b"]) (some ["x"]) [] =
      .error (.nonRectangular ["a", "b"] ["x"]) ∧
    (∃ h, ∀ d ∈ [[("a", "c"), ("b", "d")], [("a", "e"), ("b", "f")]],
        List.map Prod.fst d = h ∧ d.length = h.length) :=
  ⟨gen_export_rows_row_shape.2.2.2.2.1 mismatchCsvFile 100 [] ["a", "b"]
      [["c", "d", "e"]] ["f", "g"] ['f', ',', 'g'] (by decide)
      rfl ⟨["c", "d", "e"], by decide, by decide⟩,
   gen_export_rows_row_shape.2.1 ["a", "b"] ["x"] [] (by decide),
   gen_export_rows_row_shape.2.2.2.2.2.2 demoCsvFile 100
     [[("a", "c"), ("b", "d")], [("a", "e"), ("b", "f")]] (by decide)⟩

structure FieldSchema where
  type : List String        -- schema["type"], normalized to a list as in format_value
  typeIsList : Bool         -- whether schema["type"] was already a list
  format : Option String    -- schema.get("format")
  selected : Bool           -- schema.get("selected")
  inclusion : Option String -- schema.get("inclusion")
deriving DecidableEq

structure StreamDef where
  tap_stream_id : String
  replication_key : String
  properties : List (String × FieldSchema)
  activity_type_id : Int
deriving DecidableEq

/-- Embeds update_state_with_export_info (sync.py lines 302-309): write the
export_id and export_end bookmarks (arguments default to None at every call
site that omits them), write the replication-key bookmark only when the
bookmark argument is truthy, then call singer.write_state exactly once.
Returns the resulting state together with the list of snapshots persisted. -/
def update_state_with_export_info (state : TapState) (stream : StreamDef)
    (bookmark export_id export_end : PyVal) : TapState × List TapState :=
  let s1 := write_bookmark state stream.tap_stream_id "export_id" export_id
  let s2 := write_bookmark s1 stream.tap_stream_id "export_end" export_end
  let s3 := if pyTruthy bookmark then
      write_bookmark s2 stream.tap_stream_id stream.replication_key bookmark
    else s2
  (s3, [s3])

/-- C10: update_state_with_export_info overwrites the stream's export_id and
export_end bookmarks with its arguments, leaves the replication-key bookmark
unchanged whenever the bookmark argument is absent or falsy, and persists the
full state snapshot exactly once per call. -/
theorem update_state_with_export_info_contract (state : TapState) (stream : StreamDef)
    (bookmark export_id export_end : PyVal)
    (h1 : stream.replication_key ≠ "export_id")
    (h2 : stream.replication_key ≠ "export_end") :
    get_bookmark (update_state_with_export_info state stream bookmark export_id export_end).1
        stream.tap_stream_id "export_id" = export_id ∧
    get_bookmark (update_state_with_export_info state stream bookmark export_id export_end).1
        stream.tap_stream_id "export_end" = export_end ∧
    (¬ pyTruthy bookmark →
      get_bookmark (update_state_with_export_info state stream bookmark export_id export_end).1
          stream.tap_stream_id stream.replication_key =
        get_bookmark state stream.tap_stream_id stream.replication_key) ∧
    (update_state_with_export_info state stream bookmark export_id export_end).2 =
      [(update_state_with_export_info state stream bookmark export_id export_end).1] := by
  simp only [update_state_with_export_info]
  cases hb : pyTruthy bookmark with
  | true =>
    refine ⟨?_, ?_, ?_, trivial⟩
    · rw [if_pos rfl, get_write_bookmark_ne_key _ _ _ _ _ h1,
        get_write_bookmark_ne_key _ _ _ _ _ (by decide),
        get_write_bookmark_self]
    · rw [if_pos rfl, get_write_bookmark_ne_key _ _ _ _ _ h2, get_write_bookmark_self]
    · intro hc; exact absurd rfl hc
  | false =>
    have hcond : ¬ (false = true) := by decide
    refine ⟨?_, ?_, ?_, trivial⟩
    · rw [if_neg hcond, get_write_bookmark_ne_key _ _ _ _ _ (by decide),
        get_write_bookmark_self]
    · rw [if_neg hcond, get_write_bookmark_self]
    · intro _
      rw [if_neg hcond, get_write_bookmark_ne_key _ _ _ _ _ (Ne.symm h2),
        get_write_bookmark_ne_key _ _ _ _ _ (Ne.symm h1)]

/-- A concrete leads stream used by witnesses. -/
def leadsStream : StreamDef :=
  { tap_stream_id := "leads"
    replication_key := "updatedAt"
    properties := []
    activity_type_id := 0 }

/-- A concrete state with a replication bookmark and stale export pointers. -/
def demoState : TapState :=
  ⟨[("leads", [("updatedAt", .vtime 1577836800000000), ("export_id", .vstr "old"),
      ("export_end", .vtime 5)])]⟩

/-- Witness for C10 at a concrete call that omits bookmark (clears pointers). -/
theorem update_state_with_export_info_contract_witness :
    get_bookmark (update_state_with_export_info demoState leadsStream .vnone .vnone .vnone).1
        leadsStream.tap_stream_id "export_id" = .vnone ∧
    get_bookmark (update_state_with_export_info demoState leadsStream .vnone .vnone .vnone).1
        leadsStream.tap_stream_id "export_end" = .vnone ∧
    get_bookmark (update_state_with_export_info demoState leadsStream .vnone .vnone .vnone).1
        leadsStream.tap_stream_id leadsStream.replication_key = .vtime 1577836800000000 ∧
    (update_state_with_export_info demoState leadsStream .vnone .vnone .vnone).2 =
      [(update_state_with_export_info demoState leadsStream .vnone .vnone .vnone).1] := by
  have h := update_state_with_export_info_contract demoState leadsStream .vnone .vnone .vnone
    (by decide) (by decide)
  refine ⟨h.1, h.2.1, ?_, h.2.2.2⟩
  have h3 := h.2.2.1 (by decide)
  rw [h3]
  decide

/-! ### Value formatting (format_value / format_values, sync.py lines 136-165) -/

/-- Digit-string parser shared by the int() and float() models. -/
def parseDigits (cs : List Char) : Option Nat :=
  if cs = [] then none
  else if cs.all Char.isDigit then
    some (cs.foldl (fun a c => a * 10 + (c.toNat - 48)) 0)
  else none

/-- Model of Python int(str) on plain decimal literals (the subset the tap can
meet; other strings raise ValueError). -/
def parseIntStr (s : String) : Option Int :=
  match s.data with
  | '-' :: ds => (parseDigits ds).map (fun n => -(n : Int))
  | ds => (parseDigits ds).map (fun n => (n : Int))

/-- Model of Python int(value). -/
def pyInt : PyVal → Except PyErr PyVal
  | .vint n => .ok (.vint n)
  | .vbool b => .ok (.vint (if b then 1 else 0))
  | .vnum q => .ok (.vint (q.num / (q.den : Int)))
  | .vstr s =>
    match parseIntStr s with
    | some n => .ok (.vint n)
    | none => .error .valueError
  | _ => .error .typeError

/-- Model of Python str(value); datetimes and floats get an opaque but
deterministic rendering. -/
def pyStr : PyVal → PyVal
  | .vstr s => .vstr s
  | .vint n => .vstr (toString n)
  | .vbool b => .vstr (if b then "True" else "False")
  | .vtime t => .vstr (toString t)
  | .vnum q => .vstr (toString q.num ++ "/" ++ toString q.den)
  | .vnone => .vstr "None"

/-- Model of Python float(str) on plain decimal literals. -/
def parseFloatStr (s : String) : Option Rat :=
  let core : List Char → Option Rat := fun cs =>
    match (String.mk cs).splitOn "." with
    | [a] => (parseDigits a.data).map (fun n => (n : Rat))
    | [a, b] =>
      match parseDigits a.data, parseDigits b.data with
      | some na, some nb => some ((na : Rat) + (nb : Rat) / ((10 : Rat) ^ b.length))
      | _, _ => none
    | _ => none
  match s.data with
  | '-' :: ds => (core ds).map Neg.neg
  | ds => core ds

/-- Model of Python float(value). -/
def pyFloat : PyVal → Except PyErr PyVal
  | .vint n => .ok (.vnum n)
  | .vnum q => .ok (.vnum q)
  | .vbool b => .ok (.vnum (if b then 1 else 0))
  | .vstr s =>
    match parseFloatStr s with
    | some q => .ok (.vnum q)
    | none => .error .valueError
  | _ => .error .typeError

/-- Embeds format_value (sync.py lines 136-157).  FieldSchema.type already
holds schema["type"] normalized to a list (the source's isinstance branch);
the null rule fires first, then date-time, then the first matching declared
type among integer, string, number, boolean; otherwise the value passes
through unchanged.  pendulum.parse(...).isoformat() keeps the vtime coding. -/
def format_value (value : PyVal) (schema : FieldSchema) : Except PyErr PyVal :=
  if value = .vnone ∨ value = .vstr "" ∨ value = .vstr "null" then .ok .vnone
  else if schema.format = some "date-time" then (pendulum_parse value).map .vtime
  else if schema.type.contains "integer" then pyInt value
  else if schema.type.contains "string" then .ok (pyStr value)
  else if schema.type.contains "number" then pyFloat value
  else if schema.type.contains "boolean" then
    match value with
    | .vbool b => .ok (.vbool b)
    | .vstr s => .ok (.vbool (s.toLower = "true"))
    | _ => .error .attributeError
  else .ok value

/-- Embeds format_values (sync.py lines 159-165): format every schema field
that is selected or automatically included, in schema order; unselected
fields are skipped; absent row values format as None. -/
def format_values_aux (row : List (String × PyVal)) :
    List (String × FieldSchema) → List (String × PyVal) →
      Except PyErr (List (String × PyVal))
  | [], acc => .ok acc
  | (field, schema) :: rest, acc =>
    if ¬schema.selected ∧ ¬(schema.inclusion = some "automatic") then
      format_values_aux row rest acc
    else
      match format_value ((getAssoc row field).getD .vnone) schema with
      | .error e => .error e
      | .ok v => format_values_aux row rest (acc ++ [(field, v)])

def format_values (stream : StreamDef) (row : List (String × PyVal)) :
    Except PyErr (List (String × PyVal)) :=
  format_values_aux row stream.properties []

/-- C9: format_value returns null whenever the raw value is absent (None), the
empty string, or the literal string "null", for every schema (any declared
types, any date-time format), before any coercion can fire or fail. -/
theorem format_value_null_rule (value : PyVal) (schema : FieldSchema)
    (h : value = .vnone ∨ value = .vstr "" ∨ value = .vstr "null") :
    format_value value schema = .ok .vnone := by
  unfold format_value
  rw [if_pos h]

/-- A schema whose other branches would all coerce or fail, exercising the
null rule ahead of them. -/
def dateTimeSchema : FieldSchema :=
  { type := ["integer", "string", "number", "boolean"]
    typeIsList := true
    format := some "date-time"
    selected := true
    inclusion := none }

/-- Witness for C9 at the three null-denoting raw values under a schema with
a date-time format and every coercing type declared. -/
theorem format_value_null_rule_witness :
    format_value (.vstr "null") dateTimeSchema = .ok .vnone ∧
    format_value .vnone dateTimeSchema = .ok .vnone ∧
    format_value (.vstr "") dateTimeSchema = .ok .vnone :=
  ⟨format_value_null_rule _ _ (Or.inr (Or.inr rfl)),
   format_value_null_rule _ _ (Or.inl rfl),
   format_value_null_rule _ _ (Or.inr (Or.inl rfl))⟩

/-! ### Export job management and the leads sync (sync.py lines 190-266)

The HTTP client and the generator-backed row stream are collaborators here:
`ClientEnv` fixes the account's Corona capability, the current wall-clock
instant (pendulum.utcnow(), held constant over a run), the export ids that
successive client.create_export calls return, which exports' wait_for_export
raises ExportFailed, and the raw rows (plus optional trailing exception) that
gen_export_rows yields for each export — gen_export_rows itself is modelled
separately above. -/

def MAX_EXPORT_DAYS : Int := 30

def ATTRIBUTION_WINDOW_DAYS : Int := 1

def BASE_ACTIVITY_FIELDS : List String :=
  ["marketoGUID", "leadId", "activityDate", "activityTypeId"]

def ACTIVITY_FIELDS : List String :=
  BASE_ACTIVITY_FIELDS ++ ["primaryAttributeValue", "primaryAttributeValueId", "attributes"]

/-- The hard-coded loop bound in sync_leads (line 230):
pendulum.parse("2017-06-17T00:00:00+00:00"), i.e. unix 1497657600. -/
def leadsStopDate : Int := 1497657600000000

structure ClientEnv where
  use_corona : Bool
  now : Int
  export_id_fn : Nat → String
  wait_fails : PyVal → Bool
  rows_for : PyVal → List (List (String × PyVal))
  row_error : PyVal → Option PyErr

/-- An export-creation request as passed to client.create_export. -/
structure ExportReq where
  stream_type : String
  fields : List String
  query_field : String
  start_at : Int
  end_at : Int
  activity_type_ids : List Int
deriving DecidableEq

structure GocOut where
  export_id : PyVal
  export_end : Int
  state : TapState
  reqs : List ExportReq
  writes : List TapState
deriving DecidableEq

/-- Embeds get_or_create_export_for_leads (sync.py lines 190-215): reuse the
export_id/export_end persisted in state when an id exists (parsing the stored
end date), otherwise compute the window end min(start + 30 days, now)
truncated to whole seconds, request creation (the k-th creation returns
env.export_id_fn k), and persist `{export_id, export_end}` with one state
write. -/
def get_or_create_export_for_leads (env : ClientEnv) (state : TapState)
    (stream : StreamDef) (fields : List String) (start_date : Int)
    (createCount : Nat) : Except PyErr GocOut :=
  let export_id := get_bookmark state stream.tap_stream_id "export_id"
  let export_end := get_bookmark state stream.tap_stream_id "export_end"
  if export_id = .vnone then
    let query_field := if env.use_corona then "updatedAt" else "createdAt"
    let e1 : Int := start_date + MAX_EXPORT_DAYS * usPerDay
    let e2 : Int := if e1 ≥ env.now then env.now else e1
    let e3 : Int := truncMicroseconds e2
    let req : ExportReq := ⟨"leads", fields, query_field, start_date, e3, []⟩
    let new_id : PyVal := .vstr (env.export_id_fn createCount)
    let upd := update_state_with_export_info state stream .vnone new_id (.vtime e3)
    .ok ⟨new_id, e3, upd.1, [req], upd.2⟩
  else
    match pendulum_parse export_end with
    | .error e => .error e
    | .ok t => .ok ⟨export_id, t, state, [], []⟩

theorem upd_vnone_get_id (state : TapState) (stream : StreamDef) (id eend : PyVal) :
    get_bookmark (update_state_with_export_info state stream .vnone id eend).1
      stream.tap_stream_id "export_id" = id := by
  unfold update_state_with_export_info
  simp only [pyTruthy, Bool.false_eq_true, if_false]
  rw [get_write_bookmark_ne_key _ _ _ _ _ (by decide), get_write_bookmark_self]

theorem upd_vnone_get_end (state : TapState) (stream : StreamDef) (id eend : PyVal) :
    get_bookmark (update_state_with_export_info state stream .vnone id eend).1
      stream.tap_stream_id "export_end" = eend := by
  unfold update_state_with_export_info
  simp only [pyTruthy, Bool.false_eq_true, if_false]
  rw [get_write_bookmark_self]

/-- C8: calling get_or_create_export_for_leads again with the stream and the
state produced by a successful first call returns the same export id and the
same window end, creates no export and writes no state — regardless of the
start date or creation counter passed the second time. -/
theorem get_or_create_export_for_leads_idempotent (env : ClientEnv)
    (state : TapState) (stream : StreamDef) (fields : List String)
    (start_date : Int) (k : Nat) (out : GocOut)
    (h : get_or_create_export_for_leads env state stream fields start_date k = .ok out) :
    ∀ (start_date2 : Int) (k2 : Nat),
      get_or_create_export_for_leads env out.state stream fields start_date2 k2 =
        .ok ⟨out.export_id, out.export_end, out.state, [], []⟩ := by
  intro sd2 k2
  simp only [get_or_create_export_for_leads] at h
  by_cases hnone : get_bookmark state stream.tap_stream_id "export_id" = .vnone
  · rw [if_pos hnone] at h
    simp only [Except.ok.injEq] at h
    subst h
    dsimp only
    simp only [get_or_create_export_for_leads, upd_vnone_get_id, upd_vnone_get_end]
    rw [if_neg (by simp)]
    rfl
  · rw [if_neg hnone] at h
    cases hp : pendulum_parse (get_bookmark state stream.tap_stream_id "export_end") with
    | error e => rw [hp] at h; exact absurd h (by simp)
    | ok t =>
      rw [hp] at h
      simp only [Except.ok.injEq] at h
      subst h
      dsimp only
      simp only [get_or_create_export_for_leads]
      rw [if_neg hnone, hp]

/-- Witness environment for the export-management theorems. -/
def demoEnv : ClientEnv :=
  { use_corona := false
    now := 1498867200000000  -- 2017-07-01T00:00:00Z
    export_id_fn := fun k => if k = 0 then "exp0" else "exp1"
    wait_fails := fun _ => false
    rows_for := fun _ => []
    row_error := fun _ => none }

/-- A state holding only a leads replication bookmark of 2017-05-01T00:00:00Z. -/
def may2017State : TapState := ⟨[("leads", [("updatedAt", .vtime 1493596800000000)])]⟩

/-- The state a first get_or_create call leaves: export exp0, window end
2017-05-31T00:00:00Z, persisted alongside the replication bookmark. -/
def c8State : TapState :=
  ⟨[("leads", [("updatedAt", .vtime 1493596800000000), ("export_id", .vstr "exp0"),
      ("export_end", .vtime 1496188800000000)])]⟩

/-- The result of the first get_or_create call on may2017State. -/
def c8FirstOut : GocOut :=
  ⟨.vstr "exp0", 1496188800000000, c8State,
   [⟨"leads", ["updatedAt"], "createdAt", 1493596800000000, 1496188800000000, []⟩],
   [c8State]⟩

/-- Witness for C8: a concrete first call creates export exp0 with window end
2017-05-31, and the second call (with different start date and counter)
reuses both without creating anything. -/
theorem get_or_create_export_for_leads_idempotent_witness :
    get_or_create_export_for_leads demoEnv c8FirstOut.state leadsStream ["updatedAt"]
        99 5 =
      .ok ⟨c8FirstOut.export_id, c8FirstOut.export_end, c8FirstOut.state, [], []⟩ :=
  get_or_create_export_for_leads_idempotent demoEnv may2017State leadsStream
    ["updatedAt"] 1493596800000000 0 c8FirstOut (by decide) 99 5

/-! ### sync_leads (sync.py lines 217-266) -/

/-- The emission decision on a formatted record (sync.py lines 244-245):
emit when client.use_corona, or when the formatted updatedAt equals the
literal string "null", or when pendulum.parse(updatedAt) is at least the
original (unadjusted) bookmark; the parse of a null/absent updatedAt raises. -/
def lead_row_filter (env : ClientEnv) (og_bookmark_value : Int)
    (record : List (String × PyVal)) : Except PyErr Bool :=
  let record_updated_at := (getAssoc record "updatedAt").getD .vnone
  if env.use_corona then .ok true
  else if record_updated_at = .vstr "null" then .ok true
  else
    match pendulum_parse record_updated_at with
    | .error e => .error e
    | .ok t => .ok (og_bookmark_value ≤ t)

/-- One pass of the row loop body (sync.py lines 242-247): format the row,
then emit it exactly when the filter accepts it. -/
def process_lead_row (env : ClientEnv) (stream : StreamDef) (og_bookmark_value : Int)
    (row : List (String × PyVal)) : Except PyErr (Option (List (String × PyVal))) :=
  match format_values stream row with
  | .error e => .error e
  | .ok record =>
    match lead_row_filter env og_bookmark_value record with
    | .error e => .error e
    | .ok true => .ok (some record)
    | .ok false => .ok none

/-- The whole row loop over an export's rows: the records written before any
exception, and the exception if one occurred (a trailing generator error when
the rows themselves all process fine). -/
def stream_lead_rows (env : ClientEnv) (stream : StreamDef) (og_bookmark_value : Int) :
    List (List (String × PyVal)) → Option PyErr → List (List (String × PyVal)) →
      List (List (String × PyVal)) × Option PyErr
  | [], gen_err, acc => (acc, gen_err)
  | row :: rest, gen_err, acc =>
    match process_lead_row env stream og_bookmark_value row with
    | .error e => (acc, some e)
    | .ok (some record) => stream_lead_rows env stream og_bookmark_value rest gen_err (acc ++ [record])
    | .ok none => stream_lead_rows env stream og_bookmark_value rest gen_err acc

/-- The outcome of one iteration of the sync_leads while loop. -/
structure IterOut where
  state : TapState
  bookmark_date : Int
  error : Option PyErr
  records : List (List (String × PyVal))
  reqs : List ExportReq
  writes : List TapState
  count : Nat
deriving DecidableEq

/-- One iteration of the sync_leads while loop (sync.py lines 233-260):
obtain or create the export; wait for it — an ExportFailed purges the export
pointers and is logged critical but NOT re-raised (lines 235-239), so the
iteration continues; stream and filter the rows — any exception there purges
the export pointers and re-raises (lines 241-251); then clear the export
pointers (advancing the replication bookmark only under Corona) and hand the
window end back as the next bookmark_date. -/
def sync_leads_iteration (env : ClientEnv) (state : TapState) (stream : StreamDef)
    (fields : List String) (og_bookmark_value bookmark_date : Int)
    (createCount : Nat) : IterOut :=
  match get_or_create_export_for_leads env state stream fields bookmark_date createCount with
  | .error e => ⟨state, bookmark_date, some e, [], [], [], 0⟩
  | .ok goc =>
    let waitPurged :=
      if env.wait_fails goc.export_id then
        update_state_with_export_info goc.state stream .vnone .vnone .vnone
      else (goc.state, [])
    let streamed := stream_lead_rows env stream og_bookmark_value
      (env.rows_for goc.export_id) (env.row_error goc.export_id) []
    match streamed.2 with
    | some e =>
      let purged := update_state_with_export_info waitPurged.1 stream .vnone .vnone .vnone
      ⟨purged.1, goc.export_end, some e, streamed.1, goc.reqs,
        goc.writes ++ waitPurged.2 ++ purged.2, streamed.1.length⟩
    | none =>
      let cleared :=
        if env.use_corona then
          update_state_with_export_info waitPurged.1 stream (.vtime goc.export_end)
            .vnone .vnone
        else
          update_state_with_export_info waitPurged.1 stream .vnone .vnone .vnone
      ⟨cleared.1, goc.export_end, none, streamed.1, goc.reqs,
        goc.writes ++ waitPurged.2 ++ cleared.2, streamed.1.length⟩

/-- The outcome of a whole sync run. -/
structure SyncOut where
  state : TapState
  error : Option PyErr
  records : List (List (String × PyVal))
  reqs : List ExportReq
  writes : List TapState
  count : Nat
deriving DecidableEq

/-- The sync_leads while loop (sync.py lines 232-263): iterate export windows
while bookmark_date is before the hard-coded stop date, then write the final
bookmark (clearing export pointers).  fuel bounds the number of iterations;
the source's loop is unbounded. -/
def sync_leads_loop (env : ClientEnv) (stream : StreamDef) (fields : List String)
    (og_bookmark_value : Int) :
    Nat → Int → TapState → Nat → List (List (String × PyVal)) → List ExportReq →
      List TapState → Nat → SyncOut
  | fuel, bookmark_date, state, createCount, recs, reqs, writes, count =>
    if bookmark_date < leadsStopDate then
      match fuel with
      | 0 => ⟨state, some .fuelExhausted, recs, reqs, writes, count⟩
      | fuel + 1 =>
        let it := sync_leads_iteration env state stream fields og_bookmark_value
          bookmark_date createCount
        match it.error with
        | some e =>
          ⟨it.state, some e, recs ++ it.records, reqs ++ it.reqs,
            writes ++ it.writes, count + it.count⟩
        | none =>
          sync_leads_loop env stream fields og_bookmark_value fuel it.bookmark_date
            it.state (createCount + it.reqs.length) (recs ++ it.records)
            (reqs ++ it.reqs) (writes ++ it.writes) (count + it.count)
    else
      let final := update_state_with_export_info state stream (.vtime bookmark_date)
        .vnone .vnone
      ⟨final.1, none, recs, reqs, writes ++ final.2, count⟩

/-- Embeds sync_leads (sync.py lines 217-266): select the schema fields,
parse the stored replication bookmark (og_bookmark_value), subtract the
1-day attribution window to get the starting bookmark_date, and run the
export-window loop up to the hard-coded stop date. -/
def sync_leads (env : ClientEnv) (state : TapState) (stream : StreamDef)
    (fuel : Nat) : SyncOut :=
  let fields := (stream.properties.filter
    (fun p => p.2.selected || p.2.inclusion == some "automatic")).map Prod.fst
  match pendulum_parse (get_bookmark state stream.tap_stream_id stream.replication_key) with
  | .error e => ⟨state, some e, [], [], [], 0⟩
  | .ok og_bookmark_value =>
    sync_leads_loop env stream fields og_bookmark_value fuel
      (og_bookmark_value - ATTRIBUTION_WINDOW_DAYS * usPerDay) state 0 [] [] [] 0

/-- 2020-01-01T00:00:00Z in microseconds (unix 1577836800). -/
def t2020 : Int := 1577836800000000

/-- The leads stream of the end-to-end scenarios: replication key updatedAt,
one selected date-time field. -/
def scenarioStream : StreamDef :=
  ⟨"leads", "updatedAt",
   [("updatedAt", ⟨["string"], true, some "date-time", true, none⟩)], 0⟩

def c3Env : ClientEnv :=
  { use_corona := false
    now := t2020 + 45 * usPerDay
    export_id_fn := fun _ => "exp0"
    wait_fails := fun _ => false
    rows_for := fun _ => []
    row_error := fun _ => none }

def c3State : TapState := ⟨[("leads", [("updatedAt", .vtime t2020)])]⟩

/-- C3 (code bug): with the bookmark at 2020-01-01T00:00:00Z, no Corona, and
now 45 days later, sync_leads runs ZERO export windows: the while loop is
bounded by the hard-coded stop date 2017-06-17, which is long before the
bookmark, so no export is created, no record is emitted, and the bookmark is
rewritten one day BACKWARD (to the attribution-adjusted 2019-12-31) instead
of advancing through two 30-day windows. -/
theorem sync_leads_hardcoded_stop :
    (sync_leads c3Env c3State scenarioStream 5).reqs = [] ∧
    (sync_leads c3Env c3State scenarioStream 5).records = [] ∧
    (sync_leads c3Env c3State scenarioStream 5).error = none ∧
    get_bookmark (sync_leads c3Env c3State scenarioStream 5).state "leads" "updatedAt" =
      .vtime (t2020 - usPerDay) ∧
    (t2020 - usPerDay < t2020) := by
  refine ⟨by decide, by decide, by decide, by decide, by decide⟩

/-- 2017-05-01T00:00:00Z in microseconds (unix 1493596800). -/
def tMay2017 : Int := 1493596800000000

/-- Twelve hours in microseconds: the test row's updatedAt lies this far
before the stored bookmark, inside the 1-day attribution window. -/
def twelveHours : Int := 43200000000

def c4Env : ClientEnv :=
  { use_corona := false
    now := 1498867200000000
    export_id_fn := fun k => if k = 0 then "e0" else "e1"
    wait_fails := fun _ => false
    rows_for := fun id =>
      if id = .vstr "e0" then [[("updatedAt", .vtime (tMay2017 - twelveHours))]] else []
    row_error := fun _ => none }

/-- C4 counterexample: a row updated twelve hours before the stored bookmark
is inside the attribution window (not before bookmark minus one day), so the
claim says it is emitted; the code filters on the UNADJUSTED original
bookmark and drops it.  The same row is emitted when the account has Corona,
so the row itself is well-formed and reachable. -/
theorem sync_leads_filter_uses_unadjusted_bookmark :
    tMay2017 - ATTRIBUTION_WINDOW_DAYS * usPerDay ≤ tMay2017 - twelveHours ∧
    (sync_leads c4Env may2017State scenarioStream 5).error = none ∧
    (sync_leads c4Env may2017State scenarioStream 5).records = [] ∧
    (sync_leads { c4Env with use_corona := true } may2017State scenarioStream 5).records =
      [[("updatedAt", .vtime (tMay2017 - twelveHours))]] := by
  refine ⟨by decide, by decide, by decide, by decide⟩

/-- C4 amended: a formatted row is emitted if and only if the account has
Corona, or the formatted updatedAt is the literal string "null", or its
parsed updatedAt is at least the ORIGINAL stored bookmark (og_bookmark_value,
with no attribution adjustment — the 1-day subtraction only widens the export
query window). -/
theorem process_lead_row_emits_iff (env : ClientEnv) (stream : StreamDef)
    (og : Int) (row record : List (String × PyVal)) :
    process_lead_row env stream og row = .ok (some record) ↔
      (format_values stream row = .ok record ∧
        (env.use_corona = true ∨
          (getAssoc record "updatedAt").getD .vnone = .vstr "null" ∨
          ∃ t, pendulum_parse ((getAssoc record "updatedAt").getD .vnone) = .ok t ∧
            og ≤ t)) := by
  constructor
  · intro h
    unfold process_lead_row at h
    cases hf : format_values stream row with
    | error e => simp [hf] at h
    | ok rec0 =>
      simp only [hf] at h
      cases hfil : lead_row_filter env og rec0 with
      | error e => simp [hfil] at h
      | ok b =>
        simp only [hfil] at h
        cases b with
        | false => simp at h
        | true =>
          simp only [Except.ok.injEq, Option.some.injEq] at h
          subst h
          refine ⟨rfl, ?_⟩
          unfold lead_row_filter at hfil
          by_cases hc : env.use_corona = true
          · exact Or.inl hc
          · rw [if_neg hc] at hfil
            by_cases hnull : (getAssoc rec0 "updatedAt").getD .vnone = .vstr "null"
            · exact Or.inr (Or.inl hnull)
            · rw [if_neg hnull] at hfil
              cases hp : pendulum_parse ((getAssoc rec0 "updatedAt").getD .vnone) with
              | error e => rw [hp] at hfil; exact absurd hfil (by simp)
              | ok t =>
                simp only [hp, Except.ok.injEq] at hfil
                exact Or.inr (Or.inr ⟨t, rfl, of_decide_eq_true hfil⟩)
  · intro hconj
    obtain ⟨hf, hdisj⟩ := hconj
    have hfil : lead_row_filter env og record = .ok true := by
      unfold lead_row_filter
      rcases hdisj with hc | hnull | hge
      · rw [if_pos hc]
      · by_cases hc : env.use_corona = true
        · rw [if_pos hc]
        · rw [if_neg hc, if_pos hnull]
      · obtain ⟨t, hp, hle⟩ := hge
        by_cases hc : env.use_corona = true
        · rw [if_pos hc]
        · rw [if_neg hc]
          by_cases hnull : (getAssoc record "updatedAt").getD .vnone = .vstr "null"
          · rw [if_pos hnull]
          · rw [if_neg hnull]
            simp only [hp]
            simp [hle]
    unfold process_lead_row
    simp only [hf, hfil]

def c2Env : ClientEnv :=
  { use_corona := false
    now := 1498867200000000
    export_id_fn := fun k => if k = 0 then "exp0" else "exp1"
    wait_fails := fun id => id = .vstr "exp0"
    rows_for := fun _ => []
    row_error := fun _ => none }

/-- C2 counterexample: the first export's wait raises ExportFailed (the env
fails export exp0, which the run creates first — its creation write, writes
index 0, stores export_id exp0), the export pointers are then purged (writes
index 1 holds null pointers), yet the run does not re-raise: it finishes
normally (error none) after creating and draining a second export. -/
theorem sync_leads_swallows_export_failed :
    c2Env.wait_fails (.vstr "exp0") = true ∧
    get_bookmark ((sync_leads c2Env may2017State scenarioStream 5).writes.getD 0 ⟨[]⟩)
      "leads" "export_id" = .vstr "exp0" ∧
    get_bookmark ((sync_leads c2Env may2017State scenarioStream 5).writes.getD 1 ⟨[]⟩)
      "leads" "export_id" = .vnone ∧
    (sync_leads c2Env may2017State scenarioStream 5).reqs.length = 2 ∧
    (sync_leads c2Env may2017State scenarioStream 5).error = none := by
  refine ⟨by decide, by decide, by decide, by decide, by decide⟩

/-! ### sync_activities (sync.py lines 268-369) -/

structure GocActOut where
  export_id : PyVal
  state : TapState
  reqs : List ExportReq
  writes : List TapState
deriving DecidableEq

/-- Embeds get_or_create_export_for_activities (sync.py lines 268-299):
reuse a truthy persisted export_id; otherwise read the activity type id from
the stream metadata and the replication bookmark, build the createdAt query
window min(start + 30 days, now) truncated to seconds, create the export
with ACTIVITY_FIELDS, and persist `{export_id, export_end}` (the Python call
discards update_state_with_export_info's return value but the state dict is
mutated in place, which the threading models). -/
def get_or_create_export_for_activities (env : ClientEnv) (state : TapState)
    (stream : StreamDef) (createCount : Nat) : Except PyErr GocActOut :=
  let export_id := get_bookmark state stream.tap_stream_id "export_id"
  if pyTruthy export_id then .ok ⟨export_id, state, [], []⟩
  else
    let activity_type_id := stream.activity_type_id
    let start_date := get_bookmark state stream.tap_stream_id stream.replication_key
    match pendulum_parse start_date with
    | .error e => .error e
    | .ok start_pen =>
      let e1 : Int := start_pen + MAX_EXPORT_DAYS * usPerDay
      let e2 : Int := if e1 ≥ env.now then env.now else e1
      let e3 : Int := truncMicroseconds e2
      let req : ExportReq :=
        ⟨"activities", ACTIVITY_FIELDS, "createdAt", start_pen, e3, [activity_type_id]⟩
      let new_id : PyVal := .vstr (env.export_id_fn createCount)
      let upd := update_state_with_export_info state stream .vnone new_id (.vtime e3)
      .ok ⟨new_id, upd.1, [req], upd.2⟩

/-- Embeds wait_for_activity_export (sync.py lines 326-331): on ExportFailed,
purge the export pointers from state and re-raise.  Returns the state, the
state writes, and the re-raised exception if any. -/
def wait_for_activity_export (env : ClientEnv) (state : TapState) (stream : StreamDef)
    (export_id : PyVal) : TapState × List TapState × Option PyErr :=
  if env.wait_fails export_id then
    let purged := update_state_with_export_info state stream .vnone .vnone .vnone
    (purged.1, purged.2, some .exportFailed)
  else (state, [], none)

/-- The sync_activities row loop (sync.py lines 354-357): every formatted row
is written (no bookmark filter); exceptions stop the stream. -/
def stream_activity_rows (env : ClientEnv) (stream : StreamDef) :
    List (List (String × PyVal)) → Option PyErr → List (List (String × PyVal)) →
      List (List (String × PyVal)) × Option PyErr
  | [], gen_err, acc => (acc, gen_err)
  | row :: rest, gen_err, acc =>
    match format_values stream row with
    | .error e => (acc, some e)
    | .ok record => stream_activity_rows env stream rest gen_err (acc ++ [record])

/-- One iteration of the sync_activities while loop (sync.py lines 342-367):
get or create the export; wait via wait_for_activity_export, whose
ExportFailed is caught at line 349, the pointers purged AGAIN, logged
critical, and NOT re-raised; stream the rows (an exception purges pointers
and re-raises, lines 353-361); then read export_end back from state, write
it as the new replication bookmark, and parse it as the next window start —
after a swallowed ExportFailed that read yields null and pendulum.parse(None)
raises a TypeError.  IterOut.bookmark_date carries the parsed next start. -/
def sync_activities_iteration (env : ClientEnv) (state : TapState)
    (stream : StreamDef) (createCount : Nat) : IterOut :=
  match get_or_create_export_for_activities env state stream createCount with
  | .error e => ⟨state, 0, some e, [], [], [], 0⟩
  | .ok goc =>
    let waited := wait_for_activity_export env goc.state stream goc.export_id
    let caught :=
      match waited.2.2 with
      | some _ => update_state_with_export_info waited.1 stream .vnone .vnone .vnone
      | none => (waited.1, [])
    let streamed := stream_activity_rows env stream (env.rows_for goc.export_id)
      (env.row_error goc.export_id) []
    match streamed.2 with
    | some e =>
      let purged := update_state_with_export_info caught.1 stream .vnone .vnone .vnone
      ⟨purged.1, 0, some e, streamed.1, goc.reqs,
        goc.writes ++ waited.2.1 ++ caught.2 ++ purged.2, streamed.1.length⟩
    | none =>
      let start_date := get_bookmark caught.1 stream.tap_stream_id "export_end"
      let upd := update_state_with_export_info caught.1 stream start_date .vnone .vnone
      match pendulum_parse start_date with
      | .error e =>
        ⟨upd.1, 0, some e, streamed.1, goc.reqs,
          goc.writes ++ waited.2.1 ++ caught.2 ++ upd.2, streamed.1.length⟩
      | .ok t =>
        ⟨upd.1, t, none, streamed.1, goc.reqs,
          goc.writes ++ waited.2.1 ++ caught.2 ++ upd.2, streamed.1.length⟩

/-- The sync_activities while loop (sync.py lines 342-367): iterate while the
window start is before the job start instant (pendulum.utcnow() at entry). -/
def sync_activities_loop (env : ClientEnv) (stream : StreamDef) :
    Nat → Int → TapState → Nat → List (List (String × PyVal)) → List ExportReq →
      List TapState → Nat → SyncOut
  | fuel, start_pen, state, createCount, recs, reqs, writes, count =>
    if start_pen < env.now then
      match fuel with
      | 0 => ⟨state, some .fuelExhausted, recs, reqs, writes, count⟩
      | fuel + 1 =>
        let it := sync_activities_iteration env state stream createCount
        match it.error with
        | some e =>
          ⟨it.state, some e, recs ++ it.records, reqs ++ it.reqs,
            writes ++ it.writes, count + it.count⟩
        | none =>
          sync_activities_loop env stream fuel it.bookmark_date it.state
            (createCount + it.reqs.length) (recs ++ it.records) (reqs ++ it.reqs)
            (writes ++ it.writes) (count + it.count)
    else ⟨state, none, recs, reqs, writes, count⟩

/-- Embeds sync_activities (sync.py lines 334-369). -/
def sync_activities (env : ClientEnv) (state : TapState) (stream : StreamDef)
    (fuel : Nat) : SyncOut :=
  match pendulum_parse (get_bookmark state stream.tap_stream_id stream.replication_key) with
  | .error e => ⟨state, some e, [], [], [], 0⟩
  | .ok start_pen => sync_activities_loop env stream fuel start_pen state 0 [] [] [] 0

/-- C2 amended: when waiting for an export raises ExportFailed, the export
pointers ARE purged from state (the purged snapshot is among the writes), but
the exception is NOT re-raised.  sync_leads logs critically and the iteration
continues — with a clean row stream it completes normally (error none).  In
sync_activities, wait_for_activity_export does re-raise, but sync_activities
catches the ExportFailed, purges again, and proceeds; the iteration then
fails with a TypeError when it re-reads the purged export_end bookmark — the
ExportFailed itself is never propagated. -/
theorem sync_export_failed_purged_not_reraised :
    (∀ (env : ClientEnv) (state : TapState) (stream : StreamDef)
       (fields : List String) (og bd : Int) (k : Nat) (goc : GocOut),
       get_or_create_export_for_leads env state stream fields bd k = .ok goc →
       env.wait_fails goc.export_id = true →
       (stream_lead_rows env stream og (env.rows_for goc.export_id)
         (env.row_error goc.export_id) []).2 = none →
       (sync_leads_iteration env state stream fields og bd k).error = none ∧
       (update_state_with_export_info goc.state stream .vnone .vnone .vnone).1 ∈
         (sync_leads_iteration env state stream fields og bd k).writes) ∧
    (∀ (env : ClientEnv) (state : TapState) (stream : StreamDef) (k : Nat)
       (goc : GocActOut),
       get_or_create_export_for_activities env state stream k = .ok goc →
       env.wait_fails goc.export_id = true →
       (stream_activity_rows env stream (env.rows_for goc.export_id)
         (env.row_error goc.export_id) []).2 = none →
       (sync_activities_iteration env state stream k).error = some .typeError ∧
       (update_state_with_export_info goc.state stream .vnone .vnone .vnone).1 ∈
         (sync_activities_iteration env state stream k).writes) := by
  constructor
  · intro env state stream fields og bd k goc hgoc hw hrows
    simp only [sync_leads_iteration, hgoc, hw, if_true, hrows]
    by_cases hc : env.use_corona = true <;>
      simp [hc, update_state_with_export_info, List.mem_append]
  · intro env state stream k goc hgoc hw hrows
    simp only [sync_activities_iteration, hgoc, wait_for_activity_export, hw, if_true,
      hrows]
    rw [upd_vnone_get_end]
    simp [pendulum_parse, update_state_with_export_info, List.mem_append]

/-- C7: any exception raised while streaming or formatting an export's rows
makes the enclosing sync clear export_id and export_end from state, write the
purged snapshot out (it is the final write), and re-raise the very same
exception — in sync_leads and in sync_activities alike. -/
theorem sync_row_stream_failure_purges_then_reraises :
    (∀ (env : ClientEnv) (state : TapState) (stream : StreamDef)
       (fields : List String) (og bd : Int) (k : Nat) (goc : GocOut) (e : PyErr),
       get_or_create_export_for_leads env state stream fields bd k = .ok goc →
       (stream_lead_rows env stream og (env.rows_for goc.export_id)
         (env.row_error goc.export_id) []).2 = some e →
       (sync_leads_iteration env state stream fields og bd k).error = some e ∧
       get_bookmark (sync_leads_iteration env state stream fields og bd k).state
         stream.tap_stream_id "export_id" = .vnone ∧
       get_bookmark (sync_leads_iteration env state stream fields og bd k).state
         stream.tap_stream_id "export_end" = .vnone ∧
       (sync_leads_iteration env state stream fields og bd k).writes.getLast? =
         some (sync_leads_iteration env state stream fields og bd k).state) ∧
    (∀ (env : ClientEnv) (state : TapState) (stream : StreamDef) (k : Nat)
       (goc : GocActOut) (e : PyErr),
       get_or_create_export_for_activities env state stream k = .ok goc →
       (stream_activity_rows env stream (env.rows_for goc.export_id)
         (env.row_error goc.export_id) []).2 = some e →
       (sync_activities_iteration env state stream k).error = some e ∧
       get_bookmark (sync_activities_iteration env state stream k).state
         stream.tap_stream_id "export_id" = .vnone ∧
       get_bookmark (sync_activities_iteration env state stream k).state
         stream.tap_stream_id "export_end" = .vnone ∧
       (sync_activities_iteration env state stream k).writes.getLast? =
         some (sync_activities_iteration env state stream k).state) := by
  constructor
  · intro env state stream fields og bd k goc e hgoc hrows
    simp only [sync_leads_iteration, hgoc, hrows]
    refine ⟨trivial, ?_, ?_, ?_⟩
    · exact upd_vnone_get_id _ _ _ _
    · exact upd_vnone_get_end _ _ _ _
    · simp [update_state_with_export_info]
  · intro env state stream k goc e hgoc hrows
    simp only [sync_activities_iteration, hgoc, hrows]
    refine ⟨trivial, ?_, ?_, ?_⟩
    · exact upd_vnone_get_id _ _ _ _
    · exact upd_vnone_get_end _ _ _ _
    · simp [update_state_with_export_info]

/-- An activities stream: activity type id 7, bookmark key createdAt. -/
def actStream : StreamDef := ⟨"activities_1", "createdAt", [], 7⟩

def actState : TapState := ⟨[("activities_1", [("createdAt", .vtime tMay2017)])]⟩

/-- State after export creation in the leads witness scenario: export exp0,
window 2017-04-30 to 2017-05-30. -/
def c2LeadsGocState : TapState :=
  ⟨[("leads", [("updatedAt", .vtime tMay2017), ("export_id", .vstr "exp0"),
      ("export_end", .vtime 1496102400000000)])]⟩

def c2LeadsGoc : GocOut :=
  ⟨.vstr "exp0", 1496102400000000, c2LeadsGocState,
   [⟨"leads", ["updatedAt"], "createdAt", 1493510400000000, 1496102400000000, []⟩],
   [c2LeadsGocState]⟩

/-- State after export creation in the activities witness scenario: export
exp0, window 2017-05-01 to 2017-05-31, activity type 7. -/
def c2ActGocState : TapState :=
  ⟨[("activities_1", [("createdAt", .vtime tMay2017), ("export_id", .vstr "exp0"),
      ("export_end", .vtime 1496188800000000)])]⟩

def c2ActGoc : GocActOut :=
  ⟨.vstr "exp0", c2ActGocState,
   [⟨"activities", ACTIVITY_FIELDS, "createdAt", tMay2017, 1496188800000000, [7]⟩],
   [c2ActGocState]⟩

/-- Witness for the amended C2 at concrete failing-wait iterations, leads and
activities. -/
theorem sync_export_failed_purged_not_reraised_witness :
    ((sync_leads_iteration c2Env may2017State scenarioStream ["updatedAt"] tMay2017
        (tMay2017 - usPerDay) 0).error = none ∧
      (update_state_with_export_info c2LeadsGoc.state scenarioStream .vnone .vnone
          .vnone).1 ∈
        (sync_leads_iteration c2Env may2017State scenarioStream ["updatedAt"] tMay2017
          (tMay2017 - usPerDay) 0).writes) ∧
    ((sync_activities_iteration c2Env actState actStream 0).error = some .typeError ∧
      (update_state_with_export_info c2ActGoc.state actStream .vnone .vnone .vnone).1 ∈
        (sync_activities_iteration c2Env actState actStream 0).writes) :=
  ⟨sync_export_failed_purged_not_reraised.1 c2Env may2017State scenarioStream
      ["updatedAt"] tMay2017 (tMay2017 - usPerDay) 0 c2LeadsGoc (by decide) (by decide)
      (by decide),
   sync_export_failed_purged_not_reraised.2 c2Env actState actStream 0 c2ActGoc
      (by decide) (by decide) (by decide)⟩

/-- Environment whose row generator raises ValueError after its (empty) rows. -/
def c7Env : ClientEnv :=
  { use_corona := false
    now := 1498867200000000
    export_id_fn := fun _ => "exp0"
    wait_fails := fun _ => false
    rows_for := fun _ => []
    row_error := fun _ => some .valueError }

/-- Witness for C7 at concrete failing-row-stream iterations, leads and
activities. -/
theorem sync_row_stream_failure_purges_then_reraises_witness :
    ((sync_leads_iteration c7Env may2017State scenarioStream ["updatedAt"] tMay2017
        (tMay2017 - usPerDay) 0).error = some .valueError ∧
      get_bookmark (sync_leads_iteration c7Env may2017State scenarioStream
          ["updatedAt"] tMay2017 (tMay2017 - usPerDay) 0).state
        scenarioStream.tap_stream_id "export_id" = .vnone ∧
      get_bookmark (sync_leads_iteration c7Env may2017State scenarioStream
          ["updatedAt"] tMay2017 (tMay2017 - usPerDay) 0).state
        scenarioStream.tap_stream_id "export_end" = .vnone ∧
      (sync_leads_iteration c7Env may2017State scenarioStream ["updatedAt"] tMay2017
          (tMay2017 - usPerDay) 0).writes.getLast? =
        some (sync_leads_iteration c7Env may2017State scenarioStream ["updatedAt"]
          tMay2017 (tMay2017 - usPerDay) 0).state) ∧
    ((sync_activities_iteration c7Env actState actStream 0).error = some .valueError ∧
      get_bookmark (sync_activities_iteration c7Env actState actStream 0).state
        actStream.tap_stream_id "export_id" = .vnone ∧
      get_bookmark (sync_activities_iteration c7Env actState actStream 0).state
        actStream.tap_stream_id "export_end" = .vnone ∧
      (sync_activities_iteration c7Env actState actStream 0).writes.getLast? =
        some (sync_activities_iteration c7Env actState actStream 0).state) :=
  ⟨sync_row_stream_failure_purges_then_reraises.1 c7Env may2017State scenarioStream
      ["updatedAt"] tMay2017 (tMay2017 - usPerDay) 0 c2LeadsGoc .valueError
      (by decide) (by decide),
   sync_row_stream_failure_purges_then_reraises.2 c7Env actState actStream 0 c2ActGoc
      .valueError (by decide) (by decide)⟩

end TapMarketo
